import Mathlib

/-!
Verification of the chaos-injection module of the snippy repository
(`src/chaos.py`): configuration loading from environment variables
(`get_chaos_config`) and probabilistic fault injection
(`inject_chaos_if_enabled`).

Embedding choices:
* Python floats are modelled as rationals (`ℚ`); every comparison the
  claims depend on (`p < errorRate`, `p ≥ 0`, `p < 1`) is exact in both
  models.
* `os.environ` is a partial map `String → Option String`.
* The two potential random draws of one invocation are made explicit
  parameters: `probability` is the value `random.random()` would return
  (a sample in `[0,1)`) and `u` is the unit sample underlying
  `random.uniform(0, max_delay) = u * max_delay`.
* Effects are reified: the result records the outcome (raised or
  returned), the structured log events emitted, the number of samples
  drawn from the random stream, and the arguments passed to
  `asyncio.sleep`.
-/

namespace Snippy

/-- The environment variable store (`os.environ`), a partial map. -/
def Env : Type := String → Option String

/-- Model of `os.environ.get name default`. -/
def Env.get (env : Env) (name default : String) : String :=
  (env name).getD default

/-- Model of Python `str.lower()` (the configuration values of interest
are ASCII, where `Char.toLower` agrees with Python). -/
def strLower (s : String) : String :=
  String.mk (s.toList.map Char.toLower)

/-- Numeric value of a list of decimal digit characters. -/
def digitsVal (l : List Char) : Nat :=
  l.foldl (fun n c => 10 * n + (c.toNat - 48)) 0

/-- Python `int(s)` on a decimal string: an optional sign followed by
at least one digit; `none` (a raised `ValueError`) on malformed input. -/
def parseIntStr (s : String) : Option Int :=
  match s.toList with
  | [] => none
  | '-' :: rest =>
      if !rest.isEmpty && rest.all Char.isDigit then
        some (-(digitsVal rest : Int))
      else none
  | '+' :: rest =>
      if !rest.isEmpty && rest.all Char.isDigit then
        some (digitsVal rest : Int)
      else none
  | l =>
      if l.all Char.isDigit then some (digitsVal l : Int) else none

/-- Digits with an optional fractional part, as an exact rational. -/
def decimalVal (l : List Char) : Option ℚ :=
  let intPart := l.takeWhile Char.isDigit
  match l.dropWhile Char.isDigit with
  | [] => if intPart.isEmpty then none else some (digitsVal intPart : ℚ)
  | '.' :: frac =>
      if frac.all Char.isDigit && !(intPart.isEmpty && frac.isEmpty) then
        some ((digitsVal intPart : ℚ) + (digitsVal frac : ℚ) / 10 ^ frac.length)
      else none
  | _ => none

/-- Python `float(s)` on plain decimal notation: an optional sign,
then digits with an optional fractional part; `none` (a raised
`ValueError`) on malformed input.  Values are exact rationals. -/
def parseFloatStr (s : String) : Option ℚ :=
  match s.toList with
  | '-' :: rest => (decimalVal rest).map (fun q => -q)
  | '+' :: rest => decimalVal rest
  | l => decimalVal l

/-- The configuration dictionary returned by `get_chaos_config`. -/
structure ChaosConfig where
  CHAOS_ENABLED : Bool
  CHAOS_INJECT_ERROR_RATE : ℚ
  CHAOS_DELAY_SECONDS_MAX : Int
deriving DecidableEq, Repr

/-- `get_chaos_config`: read the configuration from the environment,
fresh on every call.  `CHAOS_ENABLED` is true iff its lower-cased value
is one of `"true"`, `"1"`, `"yes"`; the two numeric variables are parsed
by `float` and `int`; a parse failure propagates (`none`). -/
def get_chaos_config (env : Env) : Option ChaosConfig := do
  let enabled := decide (strLower (env.get "CHAOS_ENABLED" "false") ∈
    (["true", "1", "yes"] : List String))
  let rate ← parseFloatStr (env.get "CHAOS_INJECT_ERROR_RATE" "0.1")
  let maxDelay ← parseIntStr (env.get "CHAOS_DELAY_SECONDS_MAX" "5")
  some { CHAOS_ENABLED := enabled
         CHAOS_INJECT_ERROR_RATE := rate
         CHAOS_DELAY_SECONDS_MAX := maxDelay }

/-- Outcome of one invocation: it either raises `ChaosException` with
the given message, or returns control to the caller. -/
inductive ChaosOutcome where
  | raised (msg : String)
  | returned
deriving DecidableEq, Repr

/-- A structured warning log record emitted by the injector, with the
fields the source attaches to each event. -/
inductive LogEvent where
  | errorLog (probability error_rate : ℚ) (max_delay : Int) (enabled : Bool)
  | delayLog (delay_seconds probability error_rate : ℚ) (max_delay : Int) (enabled : Bool)
deriving DecidableEq, Repr

/-- The event tag of a log record (`"error"` or `"delay"`). -/
def LogEvent.eventType : LogEvent → String
  | .errorLog _ _ _ _ => "error"
  | .delayLog _ _ _ _ _ => "delay"

/-- Reified effects of one invocation of the injector: the outcome, the
log events emitted (in order), the number of samples drawn from the
random stream, and the arguments passed to `asyncio.sleep` (in order). -/
structure ChaosEffects where
  outcome : ChaosOutcome
  logs : List LogEvent
  draws : Nat
  slept : List ℚ
deriving DecidableEq, Repr

/-- The body of `inject_chaos_if_enabled` after the configuration has
been loaded.  `probability` is the sample `random.random()` would
return; `u` is the unit sample underlying `random.uniform(0, max_delay)`
(only drawn when the delay branch is reached). -/
def inject_chaos_with_config (config : ChaosConfig) (probability u : ℚ) :
    ChaosEffects :=
  if config.CHAOS_ENABLED = false then
    { outcome := .returned, logs := [], draws := 0, slept := [] }
  else
    let error_rate := config.CHAOS_INJECT_ERROR_RATE
    let max_delay := config.CHAOS_DELAY_SECONDS_MAX
    if probability < error_rate then
      { outcome := .raised "Chaos engineering: simulated service failure"
        logs := [.errorLog probability error_rate max_delay config.CHAOS_ENABLED]
        draws := 1
        slept := [] }
    else if max_delay > 0 then
      let delay_seconds := u * (max_delay : ℚ)
      { outcome := .returned
        logs := [.delayLog delay_seconds probability error_rate max_delay
          config.CHAOS_ENABLED]
        draws := 2
        slept := [delay_seconds] }
    else
      { outcome := .returned, logs := [], draws := 1, slept := [] }

/-- `inject_chaos_if_enabled`: load the configuration, then run the
injection body; a configuration parse failure propagates (`none`). -/
def inject_chaos_if_enabled (env : Env) (probability u : ℚ) :
    Option ChaosEffects :=
  (get_chaos_config env).map
    (fun config => inject_chaos_with_config config probability u)

/-- The environment with no chaos variables set. -/
def emptyEnv : Env := fun _ => none

/-- An environment setting all three chaos variables to custom values. -/
def exampleEnv : Env := fun k =>
  if k = "CHAOS_ENABLED" then some "true"
  else if k = "CHAOS_INJECT_ERROR_RATE" then some "0.25"
  else if k = "CHAOS_DELAY_SECONDS_MAX" then some "3"
  else none

/-- An environment with a malformed error-rate value. -/
def badRateEnv : Env := fun k =>
  if k = "CHAOS_INJECT_ERROR_RATE" then some "not-a-number" else none

/-- An environment with a malformed delay value. -/
def badDelayEnv : Env := fun k =>
  if k = "CHAOS_DELAY_SECONDS_MAX" then some "2.5" else none

/-- An environment with a negative delay bound. -/
def negDelayEnv : Env := fun k =>
  if k = "CHAOS_DELAY_SECONDS_MAX" then some "-3" else none

/-- An environment with an error rate above 1. -/
def highRateEnv : Env := fun k =>
  if k = "CHAOS_INJECT_ERROR_RATE" then some "1.5" else none

/-- An environment with a negative error rate. -/
def negRateEnv : Env := fun k =>
  if k = "CHAOS_INJECT_ERROR_RATE" then some "-0.5" else none

/-- Behavioural equivalence of two invocations: same outcome, same
`asyncio.sleep` calls, same number of random draws, and the same
sequence of log event tags (the numeric fields recorded inside a log
event, such as the configured error rate itself, may differ). -/
def branchEq (a b : ChaosEffects) : Prop :=
  a.outcome = b.outcome ∧ a.slept = b.slept ∧ a.draws = b.draws ∧
    a.logs.map LogEvent.eventType = b.logs.map LogEvent.eventType

end Snippy

namespace Snippy

/-- Claim C1: for every configuration with `enabled = false`, an
invocation of the injector returns immediately with no exception, no
sleep, no log emission and no random draw, regardless of the error rate
and delay bound. -/
theorem claim_C1_disabled_noop (config : ChaosConfig) (p u : ℚ)
    (h : config.CHAOS_ENABLED = false) :
    inject_chaos_with_config config p u =
      { outcome := .returned, logs := [], draws := 0, slept := [] } := by
  simp [inject_chaos_with_config, h]

/-- Witness for C1 at a concrete disabled configuration. -/
theorem claim_C1_disabled_noop_witness :
    inject_chaos_with_config ⟨false, 1, 5⟩ (1/2) (1/3) =
      { outcome := .returned, logs := [], draws := 0, slept := [] } :=
  claim_C1_disabled_noop ⟨false, 1, 5⟩ (1/2) (1/3) rfl

/-- Claim C2: with `enabled = true` and `errorRate = 1`, every
invocation raises `ChaosException`, with a message containing
"simulated service failure", for any sample `p` in `[0,1)`. -/
theorem claim_C2_rate_one_raises (config : ChaosConfig) (p u : ℚ)
    (he : config.CHAOS_ENABLED = true)
    (hr : config.CHAOS_INJECT_ERROR_RATE = 1)
    (hp0 : 0 ≤ p) (hp1 : p < 1) :
    ∃ pre post : String,
      (inject_chaos_with_config config p u).outcome =
        .raised (pre ++ "simulated service failure" ++ post) := by
  refine ⟨"Chaos engineering: ", "", ?_⟩
  have hlt : p < config.CHAOS_INJECT_ERROR_RATE := by rw [hr]; exact hp1
  simp [inject_chaos_with_config, he, hlt]

/-- Witness for C2 at a concrete configuration and sample. -/
theorem claim_C2_rate_one_raises_witness :
    ∃ pre post : String,
      (inject_chaos_with_config ⟨true, 1, 5⟩ (1/2) 0).outcome =
        .raised (pre ++ "simulated service failure" ++ post) :=
  claim_C2_rate_one_raises ⟨true, 1, 5⟩ (1/2) 0 rfl rfl
    (by norm_num) (by norm_num)

/-- Claim C3: in any single invocation, the error branch and the delay
branch are mutually exclusive: a call that sleeps returns normally, and
a call that raises performs no sleep. -/
theorem claim_C3_error_delay_exclusive (config : ChaosConfig) (p u : ℚ) :
    (inject_chaos_with_config config p u).slept = [] ∨
      (inject_chaos_with_config config p u).outcome = .returned := by
  by_cases he : config.CHAOS_ENABLED = false
  · simp [inject_chaos_with_config, he]
  · by_cases hlt : p < config.CHAOS_INJECT_ERROR_RATE
    · simp [inject_chaos_with_config, he, hlt]
    · by_cases hD : config.CHAOS_DELAY_SECONDS_MAX > 0
      · simp [inject_chaos_with_config, he, hlt, hD]
      · simp [inject_chaos_with_config, he, hlt, hD]

/-- Claim C4: with `enabled = true`, `errorRate = 0` and a positive
delay bound `D`, an invocation returns normally and calls the delay
primitive exactly once, with an argument `d` satisfying `0 ≤ d ≤ D`. -/
theorem claim_C4_delay_once_bounded (config : ChaosConfig) (p u : ℚ)
    (he : config.CHAOS_ENABLED = true)
    (hr : config.CHAOS_INJECT_ERROR_RATE = 0)
    (hD : 0 < config.CHAOS_DELAY_SECONDS_MAX)
    (hp0 : 0 ≤ p) (hu0 : 0 ≤ u) (hu1 : u < 1) :
    ∃ d : ℚ,
      (inject_chaos_with_config config p u).slept = [d] ∧
      (inject_chaos_with_config config p u).outcome = .returned ∧
      0 ≤ d ∧ d ≤ (config.CHAOS_DELAY_SECONDS_MAX : ℚ) := by
  have hnlt : ¬ p < config.CHAOS_INJECT_ERROR_RATE := by
    rw [hr]; exact not_lt.mpr hp0
  have hDq : (0 : ℚ) ≤ (config.CHAOS_DELAY_SECONDS_MAX : ℚ) := by
    exact_mod_cast hD.le
  refine ⟨u * (config.CHAOS_DELAY_SECONDS_MAX : ℚ), ?_, ?_, ?_, ?_⟩
  · simp [inject_chaos_with_config, he, hnlt, hD]
  · simp [inject_chaos_with_config, he, hnlt, hD]
  · exact mul_nonneg hu0 hDq
  · exact mul_le_of_le_one_left hDq hu1.le

/-- Witness for C4 at a concrete configuration and samples. -/
theorem claim_C4_delay_once_bounded_witness :
    ∃ d : ℚ,
      (inject_chaos_with_config ⟨true, 0, 5⟩ (1/2) (1/2)).slept = [d] ∧
      (inject_chaos_with_config ⟨true, 0, 5⟩ (1/2) (1/2)).outcome = .returned ∧
      0 ≤ d ∧ d ≤ ((5 : Int) : ℚ) :=
  claim_C4_delay_once_bounded ⟨true, 0, 5⟩ (1/2) (1/2) rfl rfl
    (by norm_num) (by norm_num) (by norm_num) (by norm_num)

/-- Claim C5: with `enabled = true`, `errorRate = 0` and
`maxDelaySeconds = 0`, an invocation returns immediately with no
exception, no sleep and no log; the error branch is unreachable since
every sample satisfies `p ≥ 0`. -/
theorem claim_C5_zero_rate_zero_delay_noop (config : ChaosConfig) (p u : ℚ)
    (he : config.CHAOS_ENABLED = true)
    (hr : config.CHAOS_INJECT_ERROR_RATE = 0)
    (hD : config.CHAOS_DELAY_SECONDS_MAX = 0)
    (hp0 : 0 ≤ p) :
    inject_chaos_with_config config p u =
      { outcome := .returned, logs := [], draws := 1, slept := [] } := by
  have hnlt : ¬ p < config.CHAOS_INJECT_ERROR_RATE := by
    rw [hr]; exact not_lt.mpr hp0
  simp [inject_chaos_with_config, he, hnlt, hD]

/-- Witness for C5 at a concrete configuration and sample. -/
theorem claim_C5_zero_rate_zero_delay_noop_witness :
    inject_chaos_with_config ⟨true, 0, 0⟩ (1/2) (1/3) =
      { outcome := .returned, logs := [], draws := 1, slept := [] } :=
  claim_C5_zero_rate_zero_delay_noop ⟨true, 0, 0⟩ (1/2) (1/3) rfl rfl rfl
    (by norm_num)

end Snippy

namespace Snippy

/-- Claim C6: with no environment values set, `get_chaos_config`
returns the defaults: disabled, error rate `0.1`, delay bound `5`. -/
theorem claim_C6_default_config :
    get_chaos_config emptyEnv = some ⟨false, 1/10, 5⟩ := by
  with_unfolding_all decide

/-- Claim C7: the loader parses the environment exactly: the enabled
flag is true iff the lower-cased `CHAOS_ENABLED` value is `"true"`,
`"1"` or `"yes"`; the error rate is the parsed float of
`CHAOS_INJECT_ERROR_RATE`; the delay bound is the parsed integer of
`CHAOS_DELAY_SECONDS_MAX`; and the example environment with values
`true`, `0.25`, `3` yields exactly that configuration. -/
theorem claim_C7_parsing_exact :
    (∀ (env : Env) (cfg : ChaosConfig), get_chaos_config env = some cfg →
      (cfg.CHAOS_ENABLED = true ↔
        (strLower (env.get "CHAOS_ENABLED" "false") = "true" ∨
         strLower (env.get "CHAOS_ENABLED" "false") = "1" ∨
         strLower (env.get "CHAOS_ENABLED" "false") = "yes"))) ∧
    (∀ (env : Env) (cfg : ChaosConfig), get_chaos_config env = some cfg →
      parseFloatStr (env.get "CHAOS_INJECT_ERROR_RATE" "0.1") =
          some cfg.CHAOS_INJECT_ERROR_RATE ∧
        parseIntStr (env.get "CHAOS_DELAY_SECONDS_MAX" "5") =
          some cfg.CHAOS_DELAY_SECONDS_MAX) ∧
    get_chaos_config exampleEnv = some ⟨true, 1/4, 3⟩ := by
  refine ⟨?_, ?_, ?_⟩
  · intro env cfg h
    unfold get_chaos_config at h
    cases hf : parseFloatStr (env.get "CHAOS_INJECT_ERROR_RATE" "0.1") with
    | none => rw [hf] at h; simp at h
    | some rate =>
      cases hi : parseIntStr (env.get "CHAOS_DELAY_SECONDS_MAX" "5") with
      | none => rw [hf, hi] at h; simp at h
      | some maxDelay =>
        rw [hf, hi] at h
        simp at h
        rw [← h]
        simp [List.mem_cons]
  · intro env cfg h
    unfold get_chaos_config at h
    cases hf : parseFloatStr (env.get "CHAOS_INJECT_ERROR_RATE" "0.1") with
    | none => rw [hf] at h; simp at h
    | some rate =>
      cases hi : parseIntStr (env.get "CHAOS_DELAY_SECONDS_MAX" "5") with
      | none => rw [hf, hi] at h; simp at h
      | some maxDelay =>
        rw [hf, hi] at h
        simp at h
        rw [← h]
        exact ⟨rfl, rfl⟩
  · with_unfolding_all decide

/-- Witness for C7: the numeric parse equations at the example
environment and its loaded configuration. -/
theorem claim_C7_parsing_exact_witness :
    parseFloatStr (exampleEnv.get "CHAOS_INJECT_ERROR_RATE" "0.1") =
        some ((⟨true, 1/4, 3⟩ : ChaosConfig).CHAOS_INJECT_ERROR_RATE) ∧
      parseIntStr (exampleEnv.get "CHAOS_DELAY_SECONDS_MAX" "5") =
        some ((⟨true, 1/4, 3⟩ : ChaosConfig).CHAOS_DELAY_SECONDS_MAX) :=
  claim_C7_parsing_exact.2.1 exampleEnv ⟨true, 1/4, 3⟩
    claim_C7_parsing_exact.2.2

/-- Claim C8: a malformed numeric value (an error-rate string that is
not a valid float, or a delay string that is not a valid integer) makes
configuration loading fail at load time instead of substituting a
default. -/
theorem claim_C8_malformed_fails_fast (env : Env) :
    (parseFloatStr (env.get "CHAOS_INJECT_ERROR_RATE" "0.1") = none →
      get_chaos_config env = none) ∧
    (parseIntStr (env.get "CHAOS_DELAY_SECONDS_MAX" "5") = none →
      get_chaos_config env = none) := by
  constructor
  · intro h
    simp [get_chaos_config, h]
  · intro h
    cases hf : parseFloatStr (env.get "CHAOS_INJECT_ERROR_RATE" "0.1") with
    | none => simp [get_chaos_config, hf]
    | some rate => simp [get_chaos_config, hf, h]

/-- Witness for C8 at two concrete malformed environments. -/
theorem claim_C8_malformed_fails_fast_witness :
    get_chaos_config badRateEnv = none ∧ get_chaos_config badDelayEnv = none :=
  ⟨(claim_C8_malformed_fails_fast badRateEnv).1 (by with_unfolding_all decide),
   (claim_C8_malformed_fails_fast badDelayEnv).2 (by with_unfolding_all decide)⟩

end Snippy

namespace Snippy

/-- Claim C9: the loader accepts a negative delay bound without
validation, and whenever `enabled = true`, the error branch is not
taken (`errorRate ≤ p`) and the delay bound is non-positive, the call
returns with no exception, no sleep and no log — any non-positive
bound behaves like `0`. -/
theorem claim_C9_nonpositive_delay_noop :
    (∀ (config : ChaosConfig) (p u : ℚ),
      config.CHAOS_ENABLED = true →
      config.CHAOS_INJECT_ERROR_RATE ≤ p →
      config.CHAOS_DELAY_SECONDS_MAX ≤ 0 →
      inject_chaos_with_config config p u =
        { outcome := .returned, logs := [], draws := 1, slept := [] }) ∧
    get_chaos_config negDelayEnv = some ⟨false, 1/10, -3⟩ := by
  constructor
  · intro config p u he hp hD
    have hnlt : ¬ p < config.CHAOS_INJECT_ERROR_RATE := not_lt.mpr hp
    have hngt : ¬ config.CHAOS_DELAY_SECONDS_MAX > 0 := not_lt.mpr hD
    simp [inject_chaos_with_config, he, hnlt, hngt]
  · with_unfolding_all decide

/-- Witness for C9 at a concrete configuration with a negative bound. -/
theorem claim_C9_nonpositive_delay_noop_witness :
    inject_chaos_with_config ⟨true, 1/2, -3⟩ (3/4) 0 =
      { outcome := .returned, logs := [], draws := 1, slept := [] } :=
  claim_C9_nonpositive_delay_noop.1 ⟨true, 1/2, -3⟩ (3/4) 0 rfl
    (by norm_num) (by norm_num)

/-- Claim C10: the loader accepts error rates outside `[0,1]` without
range validation; with `enabled = true`, a rate above `1` always takes
the error branch (the same branch behaviour as rate `1`, since every
sample satisfies `p < 1`), and a negative rate never takes the error
branch (the same branch behaviour as rate `0`, since every sample
satisfies `p ≥ 0`). -/
theorem claim_C10_out_of_range_rates :
    (get_chaos_config highRateEnv = some ⟨false, 3/2, 5⟩) ∧
    (get_chaos_config negRateEnv = some ⟨false, -(1/2), 5⟩) ∧
    (∀ (config : ChaosConfig) (p u : ℚ),
      config.CHAOS_ENABLED = true →
      1 < config.CHAOS_INJECT_ERROR_RATE →
      0 ≤ p → p < 1 →
      (inject_chaos_with_config config p u).outcome =
        .raised "Chaos engineering: simulated service failure" ∧
      branchEq (inject_chaos_with_config config p u)
        (inject_chaos_with_config
          { config with CHAOS_INJECT_ERROR_RATE := 1 } p u)) ∧
    (∀ (config : ChaosConfig) (p u : ℚ),
      config.CHAOS_ENABLED = true →
      config.CHAOS_INJECT_ERROR_RATE < 0 →
      0 ≤ p →
      (∀ msg, (inject_chaos_with_config config p u).outcome ≠ .raised msg) ∧
      branchEq (inject_chaos_with_config config p u)
        (inject_chaos_with_config
          { config with CHAOS_INJECT_ERROR_RATE := 0 } p u)) := by
  refine ⟨by with_unfolding_all decide, by with_unfolding_all decide, ?_, ?_⟩
  · intro config p u he hr hp0 hp1
    have hlt : p < config.CHAOS_INJECT_ERROR_RATE := hp1.trans hr
    constructor
    · simp [inject_chaos_with_config, he, hlt]
    · simp [inject_chaos_with_config, branchEq, he, hlt, hp1,
        LogEvent.eventType]
  · intro config p u he hr hp0
    have hnlt : ¬ p < config.CHAOS_INJECT_ERROR_RATE :=
      not_lt.mpr (hr.le.trans hp0)
    have hnlt0 : ¬ p < (0 : ℚ) := not_lt.mpr hp0
    constructor
    · intro msg
      by_cases hD : config.CHAOS_DELAY_SECONDS_MAX > 0
      · simp [inject_chaos_with_config, he, hnlt, hD]
      · simp [inject_chaos_with_config, he, hnlt, hD]
    · by_cases hD : config.CHAOS_DELAY_SECONDS_MAX > 0
      · simp [inject_chaos_with_config, branchEq, he, hnlt, hnlt0, hD,
          LogEvent.eventType]
      · simp [inject_chaos_with_config, branchEq, he, hnlt, hnlt0, hD]

/-- Witness for C10 at a concrete configuration with rate above 1. -/
theorem claim_C10_out_of_range_rates_witness :
    (inject_chaos_with_config ⟨true, 2, 0⟩ (1/2) 0).outcome =
      .raised "Chaos engineering: simulated service failure" ∧
    branchEq (inject_chaos_with_config ⟨true, 2, 0⟩ (1/2) 0)
      (inject_chaos_with_config ⟨true, 1, 0⟩ (1/2) 0) :=
  claim_C10_out_of_range_rates.2.2.1 ⟨true, 2, 0⟩ (1/2) 0 rfl
    (by norm_num) (by norm_num) (by norm_num)

end Snippy
